import Mathlib

/-!
Verification of the custom vitest matchers in `src/lib/mocks/request.ts`
of the sveltekit-server-hook-unit-tests repository.

The two matchers `toThrowRedirect` and `toThrowHttpError` classify an
arbitrary value as a SvelteKit `Redirect` signal, an `HttpError` signal,
or neither, and then perform truthiness-gated field comparisons, producing
a `MatchResult` consumed by the host framework.
-/

namespace ServerHookMatchers

/-- A SvelteKit `Redirect` signal object: carries a status code and a
location string.  Mirrors the fields accessed by `toThrowRedirect`. -/
structure Redirect where
  status : Int
  location : String
  deriving DecidableEq, Repr

/-- The body payload of a SvelteKit `HttpError`; the matcher only reads
its `message` field (accessed as `actual.body.message`). -/
structure ErrorBody where
  message : String
  deriving DecidableEq, Repr

/-- A SvelteKit `HttpError` signal object: a top-level status code and a
nested body carrying the message. -/
structure HttpError where
  status : Int
  body : ErrorBody
  deriving DecidableEq, Repr

/-- A JavaScript runtime value as seen by the matchers: either one of the
two signal variants, or some other value (null, undefined, a number, a
string, a boolean, or a plain object that is neither signal). -/
inductive Value where
  | redirect (r : Redirect)
  | httpError (e : HttpError)
  | nullV
  | undefinedV
  | num (n : Int)
  | str (s : String)
  | boolV (b : Bool)
  | plainObject
  deriving DecidableEq, Repr

/-- SvelteKit's `isRedirect` classification predicate: true exactly on
`Redirect` signal instances. -/
def isRedirect : Value → Bool
  | .redirect _ => true
  | _ => false

/-- SvelteKit's `isHttpError` classification predicate: true exactly on
`HttpError` signal instances. -/
def isHttpError : Value → Bool
  | .httpError _ => true
  | _ => false

/-- Reading the `status` property of a value: defined (`some`) on the two
signal variants, `undefined` (`none`) otherwise. -/
def Value.getStatus : Value → Option Int
  | .redirect r => some r.status
  | .httpError e => some e.status
  | _ => none

/-- Reading the `location` property of a value: defined only on a
`Redirect` signal. -/
def Value.getLocation : Value → Option String
  | .redirect r => some r.location
  | _ => none

/-- Reading the `body` property of a value: defined only on an
`HttpError` signal. -/
def Value.getBody : Value → Option ErrorBody
  | .httpError e => some e.body
  | _ => none

/-- A scalar value carried in the `actual` and `expected` slots of a
`MatchResult`: a number or a string, never a whole signal object. -/
inductive Scalar where
  | int (n : Int)
  | str (s : String)
  deriving DecidableEq, Repr

/-- The optional argument of `toThrowRedirect`:
`{ status?: number; location?: string }`.  The `extra` field models any
unsupported keys a caller may also place on the object; the matcher code
never reads them. -/
structure ExpectedRedirectFields where
  status : Option Int := none
  location : Option String := none
  extra : List (String × Scalar) := []
  deriving DecidableEq, Repr

/-- The optional argument of `toThrowHttpError`:
`{ status?: number; message?: string }`.  The `extra` field models any
unsupported keys a caller may also place on the object; the matcher code
never reads them. -/
structure ExpectedErrorFields where
  status : Option Int := none
  message : Option String := none
  extra : List (String × Scalar) := []
  deriving DecidableEq, Repr

/-- The result object returned by every matcher invocation.  The thunk
`message: () => string` of the source is modelled by the string it
produces.  `actual` and `expected` are `none` when the corresponding keys
are omitted from the returned object. -/
structure MatchResult where
  pass : Bool
  message : String
  actual : Option Scalar := none
  expected : Option Scalar := none
  deriving DecidableEq, Repr

/-- JavaScript truthiness of an optional number (`expected?.status`):
`undefined` and `0` are falsy, every other number is truthy. -/
def jsTruthyInt : Option Int → Bool
  | none => false
  | some n => decide (n ≠ 0)

/-- JavaScript truthiness of an optional string (`expected?.location`,
`expected?.message`): `undefined` and the empty string are falsy. -/
def jsTruthyStr : Option String → Bool
  | none => false
  | some s => decide (s ≠ "")

/-- The polarity-aware base message of `toThrowRedirect`:
`Expected a redirect to ${isNot ? 'not ' : ''}be thrown`. -/
def redirectBaseMessage (isNot : Bool) : String :=
  "Expected a redirect to " ++ (if isNot then "not " else "") ++ "be thrown"

/-- The polarity-aware base message of `toThrowHttpError`:
`Expected an HTTP error to ${isNot ? 'not ' : ''}be thrown`. -/
def httpErrorBaseMessage (isNot : Bool) : String :=
  "Expected an HTTP error to " ++ (if isNot then "not " else "") ++ "be thrown"

/-- The matcher `toThrowRedirect` from `src/lib/mocks/request.ts`.
`isNot` is the negation flag destructured from the matcher state; the
pattern match on `actual` realises the type narrowing performed by the
`isRedirect(actual)` guard. -/
def toThrowRedirect (isNot : Bool) (actual : Value)
    (expected : Option ExpectedRedirectFields) : MatchResult :=
  match actual with
  | .redirect r =>
    let expStatus : Option Int := expected.bind ExpectedRedirectFields.status
    let expLocation : Option String := expected.bind ExpectedRedirectFields.location
    if jsTruthyInt expStatus && decide (some r.status ≠ expStatus) then
      { pass := false, message := "Status code mismatch",
        actual := some (Scalar.int r.status), expected := expStatus.map Scalar.int }
    else if jsTruthyStr expLocation && decide (some r.location ≠ expLocation) then
      { pass := false, message := "Location mismatch",
        actual := some (Scalar.str r.location), expected := expLocation.map Scalar.str }
    else
      { pass := true, message := redirectBaseMessage isNot }
  | _ =>
    { pass := false, message := redirectBaseMessage isNot }

/-- The matcher `toThrowHttpError` from `src/lib/mocks/request.ts`.
The message comparison reads the nested `actual.body.message` field. -/
def toThrowHttpError (isNot : Bool) (actual : Value)
    (expected : Option ExpectedErrorFields) : MatchResult :=
  match actual with
  | .httpError e =>
    let expStatus : Option Int := expected.bind ExpectedErrorFields.status
    let expMessage : Option String := expected.bind ExpectedErrorFields.message
    if jsTruthyInt expStatus && decide (some e.status ≠ expStatus) then
      { pass := false, message := "Status code mismatch",
        actual := some (Scalar.int e.status), expected := expStatus.map Scalar.int }
    else if jsTruthyStr expMessage && decide (some e.body.message ≠ expMessage) then
      { pass := false, message := "Message mismatch",
        actual := some (Scalar.str e.body.message), expected := expMessage.map Scalar.str }
    else
      { pass := true, message := httpErrorBaseMessage isNot }
  | _ =>
    { pass := false, message := httpErrorBaseMessage isNot }

/-- A JavaScript property read that throws a `TypeError` when applied to
`undefined`, modelling the hazard of dereferencing a value of the wrong
variant. -/
def jsRead {α : Type} (field : String) : Option α → Except String α
  | some a => Except.ok a
  | none => Except.error ("TypeError: cannot read " ++ field ++ " of undefined")

/-- Exception-aware rendition of `toThrowRedirect`: property reads on
`actual` go through `jsRead` instead of being justified by pattern-match
narrowing, so the definition can in principle throw; the theorems show
the `isRedirect` guard makes it total. -/
def toThrowRedirectE (isNot : Bool) (actual : Value)
    (expected : Option ExpectedRedirectFields) : Except String MatchResult := do
  if isRedirect actual = false then
    return { pass := false, message := redirectBaseMessage isNot }
  let expStatus : Option Int := expected.bind ExpectedRedirectFields.status
  if jsTruthyInt expStatus then
    let st ← jsRead "status" actual.getStatus
    if decide (some st ≠ expStatus) then
      return { pass := false, message := "Status code mismatch",
               actual := some (Scalar.int st), expected := expStatus.map Scalar.int }
  let expLocation : Option String := expected.bind ExpectedRedirectFields.location
  if jsTruthyStr expLocation then
    let loc ← jsRead "location" actual.getLocation
    if decide (some loc ≠ expLocation) then
      return { pass := false, message := "Location mismatch",
               actual := some (Scalar.str loc), expected := expLocation.map Scalar.str }
  return { pass := true, message := redirectBaseMessage isNot }

/-- Exception-aware rendition of `toThrowHttpError`.  The nested access
`actual.body.message` first reads `body` (which simply yields `undefined`
on a foreign object) and then reads `message` on the result, which is the
read that would throw on `undefined`. -/
def toThrowHttpErrorE (isNot : Bool) (actual : Value)
    (expected : Option ExpectedErrorFields) : Except String MatchResult := do
  if isHttpError actual = false then
    return { pass := false, message := httpErrorBaseMessage isNot }
  let expStatus : Option Int := expected.bind ExpectedErrorFields.status
  if jsTruthyInt expStatus then
    let st ← jsRead "status" actual.getStatus
    if decide (some st ≠ expStatus) then
      return { pass := false, message := "Status code mismatch",
               actual := some (Scalar.int st), expected := expStatus.map Scalar.int }
  let expMessage : Option String := expected.bind ExpectedErrorFields.message
  if jsTruthyStr expMessage then
    let msg ← jsRead "message" (Option.map ErrorBody.message actual.getBody)
    if decide (some msg ≠ expMessage) then
      return { pass := false, message := "Message mismatch",
               actual := some (Scalar.str msg), expected := expMessage.map Scalar.str }
  return { pass := true, message := httpErrorBaseMessage isNot }

/-! Helper lemmas: closed forms of the matchers on each shape of input. -/

theorem toThrowRedirect_redirect_some (isNot : Bool) (r : Redirect)
    (e : ExpectedRedirectFields) :
    toThrowRedirect isNot (Value.redirect r) (some e) =
      if jsTruthyInt e.status && decide (some r.status ≠ e.status) then
        { pass := false, message := "Status code mismatch",
          actual := some (Scalar.int r.status), expected := e.status.map Scalar.int }
      else if jsTruthyStr e.location && decide (some r.location ≠ e.location) then
        { pass := false, message := "Location mismatch",
          actual := some (Scalar.str r.location), expected := e.location.map Scalar.str }
      else
        { pass := true, message := redirectBaseMessage isNot } := rfl

theorem toThrowHttpError_httpError_some (isNot : Bool) (h : HttpError)
    (e : ExpectedErrorFields) :
    toThrowHttpError isNot (Value.httpError h) (some e) =
      if jsTruthyInt e.status && decide (some h.status ≠ e.status) then
        { pass := false, message := "Status code mismatch",
          actual := some (Scalar.int h.status), expected := e.status.map Scalar.int }
      else if jsTruthyStr e.message && decide (some h.body.message ≠ e.message) then
        { pass := false, message := "Message mismatch",
          actual := some (Scalar.str h.body.message), expected := e.message.map Scalar.str }
      else
        { pass := true, message := httpErrorBaseMessage isNot } := rfl

theorem toThrowRedirect_not_redirect (isNot : Bool) (actual : Value)
    (expected : Option ExpectedRedirectFields) (h : isRedirect actual = false) :
    toThrowRedirect isNot actual expected =
      { pass := false, message := redirectBaseMessage isNot } := by
  cases actual <;> simp_all [isRedirect, toThrowRedirect]

theorem toThrowHttpError_not_httpError (isNot : Bool) (actual : Value)
    (expected : Option ExpectedErrorFields) (h : isHttpError actual = false) :
    toThrowHttpError isNot actual expected =
      { pass := false, message := httpErrorBaseMessage isNot } := by
  cases actual <;> simp_all [isHttpError, toThrowHttpError]

/-- Claim C1: whenever the classification predicate rejects `actual`, the
matcher returns `pass := false` with the `actual` and `expected` keys
omitted, independently of the content of the expected-fields object, and
no field comparison takes place. -/
theorem claim1_classification_failure :
    (∀ (isNot : Bool) (actual : Value) (expected : Option ExpectedRedirectFields),
      isRedirect actual = false →
      toThrowRedirect isNot actual expected =
        { pass := false, message := redirectBaseMessage isNot,
          actual := none, expected := none }) ∧
    (∀ (isNot : Bool) (actual : Value) (expected : Option ExpectedErrorFields),
      isHttpError actual = false →
      toThrowHttpError isNot actual expected =
        { pass := false, message := httpErrorBaseMessage isNot,
          actual := none, expected := none }) := by
  exact ⟨fun isNot actual expected h => toThrowRedirect_not_redirect isNot actual expected h,
         fun isNot actual expected h => toThrowHttpError_not_httpError isNot actual expected h⟩

/-- Witness for claim C1: a null value and a number are rejected by both
matchers with no diff fields, whatever the expected object holds. -/
theorem claim1_classification_failure_witness :
    toThrowRedirect false Value.nullV
        (some { status := some 303, location := some "/b" }) =
      { pass := false, message := redirectBaseMessage false,
        actual := none, expected := none } ∧
    toThrowHttpError true (Value.num 42)
        (some { status := some 500, message := some "Server Error" }) =
      { pass := false, message := httpErrorBaseMessage true,
        actual := none, expected := none } :=
  ⟨claim1_classification_failure.1 false Value.nullV
      (some { status := some 303, location := some "/b" }) rfl,
   claim1_classification_failure.2 true (Value.num 42)
      (some { status := some 500, message := some "Server Error" }) rfl⟩

/-- Claim C2: on a correctly classified signal, the status check runs
before the location (resp. message) check, and a status mismatch
short-circuits: the result carries exactly the two status values, and is
independent of whatever location (resp. message) expectation was supplied
in the same object. -/
theorem claim2_first_mismatch_short_circuits :
    (∀ (isNot : Bool) (r : Redirect) (e : ExpectedRedirectFields) (s : Int),
      e.status = some s → s ≠ 0 → r.status ≠ s →
      toThrowRedirect isNot (Value.redirect r) (some e) =
        { pass := false, message := "Status code mismatch",
          actual := some (Scalar.int r.status), expected := some (Scalar.int s) }) ∧
    (∀ (isNot : Bool) (h : HttpError) (e : ExpectedErrorFields) (s : Int),
      e.status = some s → s ≠ 0 → h.status ≠ s →
      toThrowHttpError isNot (Value.httpError h) (some e) =
        { pass := false, message := "Status code mismatch",
          actual := some (Scalar.int h.status), expected := some (Scalar.int s) }) := by
  constructor
  · intro isNot r e s hs hz hne
    rw [toThrowRedirect_redirect_some, hs]
    simp [jsTruthyInt, hz, hne]
  · intro isNot h e s hs hz hne
    rw [toThrowHttpError_httpError_some, hs]
    simp [jsTruthyInt, hz, hne]

/-- Witness for claim C2: the example of the spec, a redirect with status
302 and location `/a` checked against `{status: 303, location: '/b'}`,
reports only the status mismatch (302 versus 303); the location values do
not appear in the result. -/
theorem claim2_first_mismatch_short_circuits_witness :
    toThrowRedirect false (Value.redirect { status := 302, location := "/a" })
        (some { status := some 303, location := some "/b" }) =
      { pass := false, message := "Status code mismatch",
        actual := some (Scalar.int 302), expected := some (Scalar.int 303) } ∧
    toThrowHttpError false (Value.httpError { status := 500, body := { message := "x" } })
        (some { status := some 404, message := some "y" }) =
      { pass := false, message := "Status code mismatch",
        actual := some (Scalar.int 500), expected := some (Scalar.int 404) } :=
  ⟨claim2_first_mismatch_short_circuits.1 false { status := 302, location := "/a" }
      { status := some 303, location := some "/b" } 303 rfl (by decide) (by decide),
   claim2_first_mismatch_short_circuits.2 false { status := 500, body := { message := "x" } }
      { status := some 404, message := some "y" } 404 rfl (by decide) (by decide)⟩

/-- Claim C3: a correctly classified signal with no expected-fields
argument always passes, for any field values inside the signal; and a
supplied expected object only checks the fields it supplies, so a
location-only expectation that matches passes whatever the status is. -/
theorem claim3_pass_checks_only_supplied_fields :
    (∀ (isNot : Bool) (r : Redirect),
      (toThrowRedirect isNot (Value.redirect r) none).pass = true) ∧
    (∀ (isNot : Bool) (h : HttpError),
      (toThrowHttpError isNot (Value.httpError h) none).pass = true) ∧
    (∀ (isNot : Bool) (r : Redirect) (l : String),
      r.location = l →
      (toThrowRedirect isNot (Value.redirect r)
          (some { status := none, location := some l })).pass = true) ∧
    (∀ (isNot : Bool) (h : HttpError) (m : String),
      h.body.message = m →
      (toThrowHttpError isNot (Value.httpError h)
          (some { status := none, message := some m })).pass = true) := by
  refine ⟨fun isNot r => rfl, fun isNot h => rfl, ?_, ?_⟩
  · intro isNot r l hl
    rw [toThrowRedirect_redirect_some]
    simp [jsTruthyInt, jsTruthyStr, hl]
  · intro isNot h m hm
    rw [toThrowHttpError_httpError_some]
    simp [jsTruthyInt, jsTruthyStr, hm]

/-- Witness for claim C3: the example of the spec, a redirect with status
302 and location `/login` checked against `{location: '/login'}` passes
even though the status is never compared. -/
theorem claim3_pass_checks_only_supplied_fields_witness :
    (toThrowRedirect false (Value.redirect { status := 302, location := "/login" })
        (some { status := none, location := some "/login" })).pass = true ∧
    (toThrowHttpError false (Value.httpError { status := 500, body := { message := "Server Error" } })
        (some { status := none, message := some "Server Error" })).pass = true :=
  ⟨claim3_pass_checks_only_supplied_fields.2.2.1 false
      { status := 302, location := "/login" } "/login" rfl,
   claim3_pass_checks_only_supplied_fields.2.2.2 false
      { status := 500, body := { message := "Server Error" } } "Server Error" rfl⟩

/-- Claim C4: expected-field presence is decided by truthiness, so a
falsy expected field (status 0, or an empty location or message string)
is handled exactly as if the field were not supplied at all, and can
therefore never produce a mismatch result. -/
theorem claim4_falsy_expected_fields_are_skipped :
    (∀ (isNot : Bool) (r : Redirect) (e : ExpectedRedirectFields),
      e.status = some 0 →
      toThrowRedirect isNot (Value.redirect r) (some e) =
        toThrowRedirect isNot (Value.redirect r) (some { e with status := none })) ∧
    (∀ (isNot : Bool) (r : Redirect) (e : ExpectedRedirectFields),
      e.location = some "" →
      toThrowRedirect isNot (Value.redirect r) (some e) =
        toThrowRedirect isNot (Value.redirect r) (some { e with location := none })) ∧
    (∀ (isNot : Bool) (h : HttpError) (e : ExpectedErrorFields),
      e.status = some 0 →
      toThrowHttpError isNot (Value.httpError h) (some e) =
        toThrowHttpError isNot (Value.httpError h) (some { e with status := none })) ∧
    (∀ (isNot : Bool) (h : HttpError) (e : ExpectedErrorFields),
      e.message = some "" →
      toThrowHttpError isNot (Value.httpError h) (some e) =
        toThrowHttpError isNot (Value.httpError h) (some { e with message := none })) := by
  refine ⟨?_, ?_, ?_, ?_⟩
  · intro isNot r e hs
    rw [toThrowRedirect_redirect_some, toThrowRedirect_redirect_some, hs]
    simp [jsTruthyInt]
  · intro isNot r e hl
    rw [toThrowRedirect_redirect_some, toThrowRedirect_redirect_some, hl]
    simp [jsTruthyStr]
  · intro isNot h e hs
    rw [toThrowHttpError_httpError_some, toThrowHttpError_httpError_some, hs]
    simp [jsTruthyInt]
  · intro isNot h e hm
    rw [toThrowHttpError_httpError_some, toThrowHttpError_httpError_some, hm]
    simp [jsTruthyStr]

/-- Witness for claim C4: expecting status 0 of a redirect whose real
status is 302 does not produce a mismatch; the check is skipped and the
call behaves as if only the location had been supplied. -/
theorem claim4_falsy_expected_fields_are_skipped_witness :
    toThrowRedirect false (Value.redirect { status := 302, location := "/login" })
        (some { status := some 0, location := some "/login" }) =
      toThrowRedirect false (Value.redirect { status := 302, location := "/login" })
        (some { status := none, location := some "/login" }) ∧
    toThrowHttpError false (Value.httpError { status := 500, body := { message := "Server Error" } })
        (some { status := some 500, message := some "" }) =
      toThrowHttpError false (Value.httpError { status := 500, body := { message := "Server Error" } })
        (some { status := some 500, message := none }) :=
  ⟨claim4_falsy_expected_fields_are_skipped.1 false
      { status := 302, location := "/login" }
      { status := some 0, location := some "/login" } rfl,
   claim4_falsy_expected_fields_are_skipped.2.2.2 false
      { status := 500, body := { message := "Server Error" } }
      { status := some 500, message := some "" } rfl⟩

/-- Claim C5: neither matcher can throw: on every input, including null,
numbers, strings and arbitrary expected objects, the exception-aware
renditions return `Except.ok` of exactly the result of the pure matchers;
in particular the nested `body.message` read is only reached behind the
`isHttpError` guard, so it never hits `undefined`. -/
theorem claim5_no_exceptions :
    ∀ (isNot : Bool) (actual : Value)
      (er : Option ExpectedRedirectFields) (ee : Option ExpectedErrorFields),
      toThrowRedirectE isNot actual er = Except.ok (toThrowRedirect isNot actual er) ∧
      toThrowHttpErrorE isNot actual ee = Except.ok (toThrowHttpError isNot actual ee) := by
  intro isNot actual er ee
  constructor
  · cases actual <;> try rfl
    rename_i r
    rcases er with _ | e
    · rfl
    · rw [toThrowRedirect_redirect_some]
      simp only [toThrowRedirectE, isRedirect, Value.getStatus, Value.getLocation, jsRead,
        Option.some_bind, Bind.bind, Except.bind, pure, Except.pure]
      split_ifs <;> simp_all
  · cases actual <;> try rfl
    rename_i h
    rcases ee with _ | e
    · rfl
    · rcases e with ⟨st, msg, ex⟩
      rcases st with _ | s <;> rcases msg with _ | m <;>
        rw [toThrowHttpError_httpError_some] <;>
        simp only [toThrowHttpErrorE, isHttpError, Value.getStatus, Value.getBody, jsRead,
          Option.some_bind, Option.map_some, Bind.bind, Except.bind, pure, Except.pure] <;>
        split_ifs <;> simp_all

/-- Claim C6: for classification failures and for passing results, the
message is the polarity-aware base text: with `isNot` true it is
`Expected a redirect to not be thrown` (resp. `Expected an HTTP error to
not be thrown`), with `isNot` false the `not ` piece is absent; and the
negation flag influences only the message text, never the `pass` value. -/
theorem claim6_polarity_aware_base_message :
    (∀ (isNot : Bool) (actual : Value) (er : Option ExpectedRedirectFields),
      isRedirect actual = false ∨ (toThrowRedirect isNot actual er).pass = true →
      (toThrowRedirect isNot actual er).message =
        "Expected a redirect to " ++ (if isNot then "not " else "") ++ "be thrown") ∧
    (∀ (isNot : Bool) (actual : Value) (ee : Option ExpectedErrorFields),
      isHttpError actual = false ∨ (toThrowHttpError isNot actual ee).pass = true →
      (toThrowHttpError isNot actual ee).message =
        "Expected an HTTP error to " ++ (if isNot then "not " else "") ++ "be thrown") ∧
    (∀ (b b2 : Bool) (actual : Value) (er : Option ExpectedRedirectFields),
      (toThrowRedirect b actual er).pass = (toThrowRedirect b2 actual er).pass) ∧
    (∀ (b b2 : Bool) (actual : Value) (ee : Option ExpectedErrorFields),
      (toThrowHttpError b actual ee).pass = (toThrowHttpError b2 actual ee).pass) := by
  refine ⟨?_, ?_, ?_, ?_⟩
  · intro isNot actual er hc
    rcases hc with hc | hc
    · rw [toThrowRedirect_not_redirect isNot actual er hc]
      cases isNot <;> rfl
    · cases actual <;> rcases er with _ | e <;>
        first
          | rfl
          | (rw [toThrowRedirect_redirect_some] at hc ⊢ <;> split_ifs at hc ⊢ <;>
              simp_all [redirectBaseMessage])
  · intro isNot actual ee hc
    rcases hc with hc | hc
    · rw [toThrowHttpError_not_httpError isNot actual ee hc]
      cases isNot <;> rfl
    · cases actual <;> rcases ee with _ | e <;>
        first
          | rfl
          | (rw [toThrowHttpError_httpError_some] at hc ⊢ <;> split_ifs at hc ⊢ <;>
              simp_all [httpErrorBaseMessage])
  · intro b b2 actual er
    cases actual <;> rcases er with _ | e <;>
      first
        | rfl
        | (rw [toThrowRedirect_redirect_some, toThrowRedirect_redirect_some] <;>
            split_ifs <;> rfl)
  · intro b b2 actual ee
    cases actual <;> rcases ee with _ | e <;>
      first
        | rfl
        | (rw [toThrowHttpError_httpError_some, toThrowHttpError_httpError_some] <;>
            split_ifs <;> rfl)

/-- Witness for claim C6: concrete checks of the base message in all four
polarity and matcher combinations, and of the independence of `pass` from
the negation flag. -/
theorem claim6_polarity_aware_base_message_witness :
    (toThrowRedirect true Value.nullV none).message =
      "Expected a redirect to " ++ (if true then "not " else "") ++ "be thrown" ∧
    (toThrowRedirect false Value.nullV none).message =
      "Expected a redirect to " ++ (if false then "not " else "") ++ "be thrown" ∧
    (toThrowHttpError true Value.nullV none).message =
      "Expected an HTTP error to " ++ (if true then "not " else "") ++ "be thrown" ∧
    (toThrowHttpError false Value.nullV none).message =
      "Expected an HTTP error to " ++ (if false then "not " else "") ++ "be thrown" ∧
    (toThrowRedirect true Value.nullV none).pass = (toThrowRedirect false Value.nullV none).pass ∧
    (toThrowHttpError true Value.nullV none).pass = (toThrowHttpError false Value.nullV none).pass :=
  ⟨claim6_polarity_aware_base_message.1 true Value.nullV none (Or.inl rfl),
   claim6_polarity_aware_base_message.1 false Value.nullV none (Or.inl rfl),
   claim6_polarity_aware_base_message.2.1 true Value.nullV none (Or.inl rfl),
   claim6_polarity_aware_base_message.2.1 false Value.nullV none (Or.inl rfl),
   claim6_polarity_aware_base_message.2.2.1 true false Value.nullV none,
   claim6_polarity_aware_base_message.2.2.2 true false Value.nullV none⟩

/-- Claim C7: every failing-with-fields result pairs scalar values of the
single offending field: the top-level status of the signal against the
supplied status, the location against the supplied location, and for an
HTTP-error message mismatch the nested `body.message` of the signal
against the supplied message. -/
theorem claim7_mismatch_reports_offending_scalars :
    (∀ (isNot : Bool) (r : Redirect) (e : ExpectedRedirectFields) (s : Int),
      e.status = some s → s ≠ 0 → r.status ≠ s →
      toThrowRedirect isNot (Value.redirect r) (some e) =
        { pass := false, message := "Status code mismatch",
          actual := some (Scalar.int r.status), expected := some (Scalar.int s) }) ∧
    (∀ (isNot : Bool) (r : Redirect) (e : ExpectedRedirectFields) (l : String),
      (jsTruthyInt e.status = false ∨ e.status = some r.status) →
      e.location = some l → l ≠ "" → r.location ≠ l →
      toThrowRedirect isNot (Value.redirect r) (some e) =
        { pass := false, message := "Location mismatch",
          actual := some (Scalar.str r.location), expected := some (Scalar.str l) }) ∧
    (∀ (isNot : Bool) (h : HttpError) (e : ExpectedErrorFields) (s : Int),
      e.status = some s → s ≠ 0 → h.status ≠ s →
      toThrowHttpError isNot (Value.httpError h) (some e) =
        { pass := false, message := "Status code mismatch",
          actual := some (Scalar.int h.status), expected := some (Scalar.int s) }) ∧
    (∀ (isNot : Bool) (h : HttpError) (e : ExpectedErrorFields) (m : String),
      (jsTruthyInt e.status = false ∨ e.status = some h.status) →
      e.message = some m → m ≠ "" → h.body.message ≠ m →
      toThrowHttpError isNot (Value.httpError h) (some e) =
        { pass := false, message := "Message mismatch",
          actual := some (Scalar.str h.body.message), expected := some (Scalar.str m) }) := by
  refine ⟨?_, ?_, ?_, ?_⟩
  · intro isNot r e s hs hz hne
    rw [toThrowRedirect_redirect_some, hs]
    simp [jsTruthyInt, hz, hne]
  · intro isNot r e l hst hl hnil hne
    rw [toThrowRedirect_redirect_some, hl]
    rcases hst with hst | hst
    · simp [hst, jsTruthyStr, hnil, hne]
    · rw [hst]
      simp [jsTruthyStr, hnil, hne]
  · intro isNot h e s hs hz hne
    rw [toThrowHttpError_httpError_some, hs]
    simp [jsTruthyInt, hz, hne]
  · intro isNot h e m hst hm hnil hne
    rw [toThrowHttpError_httpError_some, hm]
    rcases hst with hst | hst
    · simp [hst, jsTruthyStr, hnil, hne]
    · rw [hst]
      simp [jsTruthyStr, hnil, hne]

/-- Witness for claim C7: scenario B of the spec: an HTTP error with
status 500 and message `Server Error` against `{message: 'Wrong'}` fails
with actual `Server Error` and expected `Wrong`; a redirect with matching
status but location `/a` against `/b` fails with the two locations. -/
theorem claim7_mismatch_reports_offending_scalars_witness :
    toThrowHttpError false (Value.httpError { status := 500, body := { message := "Server Error" } })
        (some { status := none, message := some "Wrong" }) =
      { pass := false, message := "Message mismatch",
        actual := some (Scalar.str "Server Error"), expected := some (Scalar.str "Wrong") } ∧
    toThrowRedirect false (Value.redirect { status := 302, location := "/a" })
        (some { status := some 302, location := some "/b" }) =
      { pass := false, message := "Location mismatch",
        actual := some (Scalar.str "/a"), expected := some (Scalar.str "/b") } :=
  ⟨claim7_mismatch_reports_offending_scalars.2.2.2 false
      { status := 500, body := { message := "Server Error" } }
      { status := none, message := some "Wrong" } "Wrong"
      (Or.inl rfl) rfl (by decide) (by decide),
   claim7_mismatch_reports_offending_scalars.2.1 false
      { status := 302, location := "/a" }
      { status := some 302, location := some "/b" } "/b"
      (Or.inr rfl) rfl (by decide) (by decide)⟩

/-- Claim C8: the matchers read only the recognized keys of the expected
object (status and location, resp. status and message); two expected
objects agreeing on those keys but carrying different unsupported extra
keys yield identical results on every input. -/
theorem claim8_unsupported_keys_ignored :
    (∀ (isNot : Bool) (actual : Value) (e1 e2 : ExpectedRedirectFields),
      e1.status = e2.status → e1.location = e2.location →
      toThrowRedirect isNot actual (some e1) = toThrowRedirect isNot actual (some e2)) ∧
    (∀ (isNot : Bool) (actual : Value) (e1 e2 : ExpectedErrorFields),
      e1.status = e2.status → e1.message = e2.message →
      toThrowHttpError isNot actual (some e1) = toThrowHttpError isNot actual (some e2)) := by
  constructor
  · intro isNot actual e1 e2 hs hl
    cases actual <;> try rfl
    rw [toThrowRedirect_redirect_some, toThrowRedirect_redirect_some, hs, hl]
  · intro isNot actual e1 e2 hs hm
    cases actual <;> try rfl
    rw [toThrowHttpError_httpError_some, toThrowHttpError_httpError_some, hs, hm]

/-- Witness for claim C8: adding an unrecognized key to the expected
object changes nothing in the result of either matcher. -/
theorem claim8_unsupported_keys_ignored_witness :
    toThrowRedirect false (Value.redirect { status := 302, location := "/a" })
        (some { status := some 303, location := some "/b",
                extra := [("code", Scalar.int 7)] }) =
      toThrowRedirect false (Value.redirect { status := 302, location := "/a" })
        (some { status := some 303, location := some "/b" }) ∧
    toThrowHttpError true (Value.httpError { status := 500, body := { message := "x" } })
        (some { status := none, message := some "x",
                extra := [("detail", Scalar.str "y")] }) =
      toThrowHttpError true (Value.httpError { status := 500, body := { message := "x" } })
        (some { status := none, message := some "x" }) :=
  ⟨claim8_unsupported_keys_ignored.1 false
      (Value.redirect { status := 302, location := "/a" })
      { status := some 303, location := some "/b", extra := [("code", Scalar.int 7)] }
      { status := some 303, location := some "/b" } rfl rfl,
   claim8_unsupported_keys_ignored.2 true
      (Value.httpError { status := 500, body := { message := "x" } })
      { status := none, message := some "x", extra := [("detail", Scalar.str "y")] }
      { status := none, message := some "x" } rfl rfl⟩

/-- Claim C9: each matcher is a deterministic pure function of the
negation flag, the actual value and the expected object: two invocations
with equal inputs agree on the pass value, the message text and the
actual and expected diff fields.  The embedding itself is a total pure
function, which is the shallow counterpart of the absence of mutation,
I/O and shared state in the source. -/
theorem claim9_deterministic_pure_function :
    ∀ (i1 i2 : Bool) (a1 a2 : Value)
      (er1 er2 : Option ExpectedRedirectFields) (ee1 ee2 : Option ExpectedErrorFields),
      i1 = i2 → a1 = a2 → er1 = er2 → ee1 = ee2 →
      ((toThrowRedirect i1 a1 er1).pass = (toThrowRedirect i2 a2 er2).pass ∧
       (toThrowRedirect i1 a1 er1).message = (toThrowRedirect i2 a2 er2).message ∧
       (toThrowRedirect i1 a1 er1).actual = (toThrowRedirect i2 a2 er2).actual ∧
       (toThrowRedirect i1 a1 er1).expected = (toThrowRedirect i2 a2 er2).expected) ∧
      ((toThrowHttpError i1 a1 ee1).pass = (toThrowHttpError i2 a2 ee2).pass ∧
       (toThrowHttpError i1 a1 ee1).message = (toThrowHttpError i2 a2 ee2).message ∧
       (toThrowHttpError i1 a1 ee1).actual = (toThrowHttpError i2 a2 ee2).actual ∧
       (toThrowHttpError i1 a1 ee1).expected = (toThrowHttpError i2 a2 ee2).expected) := by
  intro i1 i2 a1 a2 er1 er2 ee1 ee2 hi ha her hee
  subst hi
  subst ha
  subst her
  subst hee
  exact ⟨⟨rfl, rfl, rfl, rfl⟩, ⟨rfl, rfl, rfl, rfl⟩⟩

/-- Witness for claim C9: two textually identical invocations agree on
every observable component of the result. -/
theorem claim9_deterministic_pure_function_witness :
    ((toThrowRedirect true (Value.redirect { status := 302, location := "/a" })
        (some { status := some 303 })).pass =
      (toThrowRedirect true (Value.redirect { status := 302, location := "/a" })
        (some { status := some 303 })).pass ∧
     (toThrowRedirect true (Value.redirect { status := 302, location := "/a" })
        (some { status := some 303 })).message =
      (toThrowRedirect true (Value.redirect { status := 302, location := "/a" })
        (some { status := some 303 })).message ∧
     (toThrowRedirect true (Value.redirect { status := 302, location := "/a" })
        (some { status := some 303 })).actual =
      (toThrowRedirect true (Value.redirect { status := 302, location := "/a" })
        (some { status := some 303 })).actual ∧
     (toThrowRedirect true (Value.redirect { status := 302, location := "/a" })
        (some { status := some 303 })).expected =
      (toThrowRedirect true (Value.redirect { status := 302, location := "/a" })
        (some { status := some 303 })).expected) ∧
    ((toThrowHttpError true Value.nullV none).pass =
      (toThrowHttpError true Value.nullV none).pass ∧
     (toThrowHttpError true Value.nullV none).message =
      (toThrowHttpError true Value.nullV none).message ∧
     (toThrowHttpError true Value.nullV none).actual =
      (toThrowHttpError true Value.nullV none).actual ∧
     (toThrowHttpError true Value.nullV none).expected =
      (toThrowHttpError true Value.nullV none).expected) :=
  claim9_deterministic_pure_function true true
    (Value.redirect { status := 302, location := "/a" })
    (Value.redirect { status := 302, location := "/a" })
    (some { status := some 303 }) (some { status := some 303 })
    none none rfl rfl rfl rfl

/-- Claim C10: a result that carries diff fields (a field-comparison
failure) has one of the constant messages `Status code mismatch`,
`Location mismatch` or `Message mismatch`, and the whole result is
independent of the negation flag; only classification failures and
passing results have polarity-aware wording. -/
theorem claim10_field_mismatch_messages_constant :
    (∀ (b b2 : Bool) (actual : Value) (er : Option ExpectedRedirectFields),
      (toThrowRedirect b actual er).actual.isSome = true →
      ((toThrowRedirect b actual er).message = "Status code mismatch" ∨
       (toThrowRedirect b actual er).message = "Location mismatch") ∧
      toThrowRedirect b actual er = toThrowRedirect b2 actual er) ∧
    (∀ (b b2 : Bool) (actual : Value) (ee : Option ExpectedErrorFields),
      (toThrowHttpError b actual ee).actual.isSome = true →
      ((toThrowHttpError b actual ee).message = "Status code mismatch" ∨
       (toThrowHttpError b actual ee).message = "Message mismatch") ∧
      toThrowHttpError b actual ee = toThrowHttpError b2 actual ee) := by
  constructor
  · intro b b2 actual er h
    cases actual <;> rcases er with _ | e <;>
      try (simp [toThrowRedirect, jsTruthyInt, jsTruthyStr] at h; done)
    rename_i r
    rw [toThrowRedirect_redirect_some] at h
    rw [toThrowRedirect_redirect_some, toThrowRedirect_redirect_some]
    split_ifs at h ⊢ <;> simp_all
  · intro b b2 actual ee h
    cases actual <;> rcases ee with _ | e <;>
      try (simp [toThrowHttpError, jsTruthyInt, jsTruthyStr] at h; done)
    rename_i he
    rw [toThrowHttpError_httpError_some] at h
    rw [toThrowHttpError_httpError_some, toThrowHttpError_httpError_some]
    split_ifs at h ⊢ <;> simp_all

/-- Witness for claim C10: a status mismatch of each matcher has the
constant mismatch message, identical under both polarities. -/
theorem claim10_field_mismatch_messages_constant_witness :
    (((toThrowRedirect true (Value.redirect { status := 302, location := "/a" })
        (some { status := some 303 })).message = "Status code mismatch" ∨
      (toThrowRedirect true (Value.redirect { status := 302, location := "/a" })
        (some { status := some 303 })).message = "Location mismatch") ∧
     toThrowRedirect true (Value.redirect { status := 302, location := "/a" })
        (some { status := some 303 }) =
       toThrowRedirect false (Value.redirect { status := 302, location := "/a" })
        (some { status := some 303 })) ∧
    (((toThrowHttpError true (Value.httpError { status := 500, body := { message := "x" } })
        (some { status := some 404 })).message = "Status code mismatch" ∨
      (toThrowHttpError true (Value.httpError { status := 500, body := { message := "x" } })
        (some { status := some 404 })).message = "Message mismatch") ∧
     toThrowHttpError true (Value.httpError { status := 500, body := { message := "x" } })
        (some { status := some 404 }) =
       toThrowHttpError false (Value.httpError { status := 500, body := { message := "x" } })
        (some { status := some 404 })) :=
  ⟨claim10_field_mismatch_messages_constant.1 true false
      (Value.redirect { status := 302, location := "/a" })
      (some { status := some 303 }) (by decide),
   claim10_field_mismatch_messages_constant.2 true false
      (Value.httpError { status := 500, body := { message := "x" } })
      (some { status := some 404 }) (by decide)⟩

end ServerHookMatchers
